import Mathlib

/-!
Shallow embedding of the rustsbi-jh7100 firmware core
(`src/rustsbi-jh7100/src/{main.rs, execute.rs, peripheral/uart.rs}`).

Machine words (`usize`, `u32`, `u8`) are modelled as `Nat`; arithmetic that
the Rust source performs with wrapping semantics (`wrapping_add`) is
modelled with an explicit `% 2^64`.

The repository's `hsm.rs`, `runtime.rs` and `feature.rs` modules are not
present under `src/`; the data they contribute (the `HsmCommand` mailbox
variants, the `SupervisorContext` record, the delegation guard
`should_transfer_trap` and the `emulate_rdtime` recognizer) is modelled
from the specification, as noted on each definition.
-/

namespace RustSBI

/-- Return record of `rustsbi::ecall`: the `(error, value)` pair written
back to `a0`/`a1` (external `rustsbi` crate; only the record shape is
needed here). -/
structure SbiRet where
  error : Nat
  value : Nat
  deriving DecidableEq, Repr

/-- Modelled from the spec: `HsmCommand` (module `hsm.rs` is missing from
`src/`): tagged variant `Start{start_addr, opaq}` or `Stop`, the
per-hart mailbox payload read by `hsm.last_command()`. -/
inductive HsmCommand where
  | start (start_paddr : Nat) (opaq : Nat)
  | stop
  deriving DecidableEq, Repr

/-- Modelled from the spec: `SupervisorContext` (module `runtime.rs` is
missing from `src/`): the 31 general-purpose registers together with
`mstatus` and `mepc`.  The argument registers `a0..a7` that
`execute.rs` reads and writes are individual fields; the remaining 23
general-purpose registers, untouched by the execute loop, are grouped in
`otherRegs`. -/
structure SupervisorContext where
  a0 : Nat
  a1 : Nat
  a2 : Nat
  a3 : Nat
  a4 : Nat
  a5 : Nat
  a6 : Nat
  a7 : Nat
  mstatus : Nat
  mepc : Nat
  otherRegs : List Nat
  deriving DecidableEq, Repr

/-- The machine CSRs written by the non-retentive resume path of
`execute.rs`: `satp` and `mstatus`.  On RISC-V, `sstatus` is an
architectural view of `mstatus`, so `sstatus::clear_sie()` clears
`mstatus.SIE` (bit 1) and a subsequent `mstatus::read()` observes the
cleared bit. -/
structure MachineCsrs where
  satp : Nat
  mstatus : Nat
  deriving DecidableEq, Repr

/-- Bit position of `SIE` in `mstatus`/`sstatus`. -/
def sieBit : Nat := 1

/-- `sstatus::clear_sie()`: clear bit 1 of `mstatus` (`csrrc` with the
64-bit mask `!(1 << 1)`, i.e. `0xFFFF_FFFF_FFFF_FFFD`). -/
def clearSie (mstatus : Nat) : Nat :=
  mstatus &&& (2 ^ 64 - 1 - (1 <<< sieBit))

/-- The non-retentive start/resume rewrite performed by
`execute.rs` (both at the `0x233` SbiCall path, lines 23–31, and at the
wake-after-`Stop` path, lines 80–89): write `satp = 0`, clear
`sstatus.SIE`, re-read `ctx.mstatus` from the modified `sstatus`, and set
`a0 = hart_id`, `a1 = opaq`, `mepc = start_paddr`. -/
def nonRetentiveResume (hartId : Nat) (startPaddr opaq : Nat)
    (ctx : SupervisorContext) (csr : MachineCsrs) :
    SupervisorContext × MachineCsrs :=
  let csr' : MachineCsrs := { satp := 0, mstatus := clearSie csr.mstatus }
  ({ ctx with
      mstatus := csr'.mstatus
      a0 := hartId
      a1 := opaq
      mepc := startPaddr }, csr')

/-- The `SbiCall` arm of the execute loop (`execute.rs` lines 16–37):
given the result `ans` of `rustsbi::ecall` and the mailbox content
`cmd = hsm.last_command()`, either perform the non-retentive resume
rewrite (sentinel `0x233` with a pending `Start`), or write the return
pair into `a0`/`a1` and advance `mepc` by 4 with wrapping addition.
When the sentinel is returned but no `Start` command is pending, the
context and CSRs are left untouched. -/
def handleSbiCall (hartId : Nat) (ans : SbiRet) (cmd : Option HsmCommand)
    (ctx : SupervisorContext) (csr : MachineCsrs) :
    SupervisorContext × MachineCsrs :=
  if ans.error = 0x233 then
    match cmd with
    | some (.start startPaddr opaq) =>
        nonRetentiveResume hartId startPaddr opaq ctx csr
    | _ => (ctx, csr)
  else
    ({ ctx with
        a0 := ans.error
        a1 := ans.value
        mepc := (ctx.mepc + 4) % 2 ^ 64 }, csr)

/-! ## PMP configuration (`main.rs`, `set_pmp`, lines 92–141) -/

/-- `calc_pmpaddr` closure of `set_pmp`:
`(start_addr >> 2) | ((length >> 2) - 1)`. -/
def calc_pmpaddr (startAddr length : Nat) : Nat :=
  (startAddr >>> 2) ||| ((length >>> 2) - 1)

/-- The four CSR values written by `set_pmp`: `pmpcfg0` and
`pmpaddr0..2`, computed exactly as in the source. -/
def set_pmp : Nat × Nat × Nat × Nat :=
  let pmpcfg0 : Nat := 0
  let pmpcfg0 := pmpcfg0 ||| 0b11011
  let pmpaddr0 := calc_pmpaddr 0x10000000 0x8000000
  let pmpcfg0 := pmpcfg0 ||| (0b11011 <<< 8)
  let pmpaddr1 := calc_pmpaddr 0x2000000 0x10000
  let pmpcfg0 := pmpcfg0 ||| (0b11111 <<< 16)
  let pmpaddr2 := calc_pmpaddr 0x80000000 0x200000000
  (pmpcfg0, pmpaddr0, pmpaddr1, pmpaddr2)

/-! ## Entry stub (`main.rs`, `entry`, lines 223–245) -/

/-- `PER_HART_STACK_SIZE` (`main.rs` line 30). -/
def PER_HART_STACK_SIZE : Nat := 4 * 4096

/-- `SBI_STACK_SIZE` (`main.rs` line 31). -/
def SBI_STACK_SIZE : Nat := 2 * PER_HART_STACK_SIZE

/-- The counting loop of the naked `entry` stub: starting from `sp` and
counter `t2`, repeatedly `sp += t0; t2 -= 1` until `t2` reaches zero.
RV64 `add` wraps modulo `2^64`. -/
def entryLoop (t0 : Nat) : Nat → Nat → Nat
  | sp, 0 => sp
  | sp, t2 + 1 => entryLoop t0 ((sp + t0) % 2 ^ 64) t2

/-- The naked `entry` stub: `sp = SBI_STACK; t0 = PER_HART_STACK_SIZE;
t1 = mhartid; t2 = t1 + 1;` then the counting loop, then `j rust_main`.
Returns the final stack pointer together with the jump target. -/
inductive EntryTarget where
  | rustMain
  deriving DecidableEq, Repr

/-- Final `(sp, jump target)` computed by `entry` for stack base
`stackBase` and hart id `hartId`. -/
def entry (stackBase hartId : Nat) : Nat × EntryTarget :=
  (entryLoop PER_HART_STACK_SIZE stackBase (hartId + 1), .rustMain)

/-! ## Trap classification and fatal conditions (`execute.rs`) -/

/-- The wake-after-`Stop` tail of the `MachineSoft` arm
(`execute.rs` lines 64–91): after `pause()` returns, if the mailbox now
holds a `Start` command, perform the non-retentive rewrite; otherwise the
context is left unchanged. -/
def handleMachineSoftStopWake (hartId : Nat) (wakeCmd : Option HsmCommand)
    (ctx : SupervisorContext) (csr : MachineCsrs) :
    SupervisorContext × MachineCsrs :=
  match wakeCmd with
  | some (.start startPaddr opaq) =>
      nonRetentiveResume hartId startPaddr opaq ctx csr
  | _ => (ctx, csr)

/-- A machine trap yielded by the runtime, tagged with the environment
data that decides the handler's branch: `sbiCall` carries the result of
the external `rustsbi::ecall`; `illegalInstruction` carries whether
`emulate_rdtime` recognized the fetched word (a `rdtime`/`rdtimeh` read;
`feature.rs` is missing from `src/`, its recognizer is modelled from the
spec as this boolean). -/
inductive TrapEvent where
  | sbiCall (ans : SbiRet)
  | illegalInstruction (emulable : Bool)
  | machineTimer
  | machineSoft
  deriving DecidableEq, Repr

/-- Outcome of one iteration of the execute loop: either the supervisor
is resumed (possibly with a mutated context), or the firmware panics
with a message. -/
inductive Outcome where
  | resume
  | panicked (msg : String)
  deriving DecidableEq, Repr

/-- Whether an outcome is a panic. -/
def Outcome.isPanic : Outcome → Bool
  | .resume => false
  | .panicked _ => true

/-- Control outcome of the execute loop for one yielded trap
(`execute.rs` lines 14–106).  `delegable` is the result of
`feature::should_transfer_trap` (modelled from the spec: `feature.rs` is
missing from `src/`; true iff the corresponding `medeleg`/`mideleg` bit
allows constructing an S-mode trap); `cmd` is `hsm.last_command()` at the
time of the trap.
  * `SbiCall` never panics (it mutates the context and resumes);
  * `IllegalInstruction` resumes if emulated or delegable, else calls
    `fail_illegal_instruction` which panics;
  * `MachineTimer` sets `mip.STIP`, clears `mie.MTIE`, resumes;
  * `MachineSoft` panics on a pending `Start` (illegal state), resumes
    through `pause` on `Stop`, and on an empty mailbox delegates if
    allowed, else panics. -/
def handleTrap (delegable : Bool) (cmd : Option HsmCommand) :
    TrapEvent → Outcome
  | .sbiCall _ => .resume
  | .illegalInstruction emulable =>
      if emulable then .resume
      else if delegable then .resume
      else .panicked "invalid instruction from machine level"
  | .machineTimer => .resume
  | .machineSoft =>
      match cmd with
      | some (.start _ _) => .panicked "rustsbi-jh7100: illegal state"
      | some .stop => .resume
      | none =>
          if delegable then .resume
          else .panicked
            "rustsbi-jh7100: machine soft interrupt with no hart state monitor command"

/-- Observable output actions of the firmware (used by the panic
handler model). -/
inductive OutputEvent where
  | print (s : String)
  | systemReset
  deriving DecidableEq, Repr

/-- Output of the panic handler `on_panic` (`main.rs` lines 35–40): a
single UART print of the hart id and the panic message, and nothing
else — in particular no `systemReset`. -/
def onPanicOutput (hartId : Nat) (info : String) : List OutputEvent :=
  [.print ("[rustsbi-panic] hart " ++ toString hartId ++ " " ++ info)]

/-- Control point of the panic handler after its print: either still in
the final infinite loop, or returned to a caller (which `on_panic`,
typed `-> !`, never does). -/
inductive PanicPc where
  | looping
  | returned
  deriving DecidableEq, Repr

/-- The final `loop \x7b\x7d` of `on_panic`: the body is empty and there
is no `break`, so the control point steps from `looping` back to
`looping`. -/
def panicLoopStep : PanicPc → PanicPc
  | .looping => .looping
  | .returned => .returned

/-! ## Delegation (`main.rs`, `delegate_interrupt_exception`,
lines 168–190) -/

/-- The three CSRs written by `delegate_interrupt_exception`. -/
structure DelegCsrs where
  mideleg : Nat
  medeleg : Nat
  mie : Nat
  deriving DecidableEq, Repr

/-- Architectural bit positions used by the `riscv` crate setters called
in `delegate_interrupt_exception` (RISC-V privileged spec):
`mideleg`: USIP=0, SSIP=1, UTIP=4, STIP=5, UEIP=8, SEIP=9;
`medeleg`: instruction-misaligned=0, instruction-access-fault=1,
breakpoint=3, load-access-fault=5, store-access-fault=7, user-ECALL=8,
instruction-page-fault=12, load-page-fault=13, store-page-fault=15;
`mie`: MSIE=3, MTIE=7, MEIE=11. -/
def setBit (b : Nat) (x : Nat) : Nat := x ||| (1 <<< b)

/-- `delegate_interrupt_exception` (`main.rs` lines 168–190), one CSR
set-bit per source line, in source order; `mie::set_mtimer` is
deliberately not called. -/
def delegate_interrupt_exception (s : DelegCsrs) : DelegCsrs :=
  let s := { s with mideleg := setBit 9 s.mideleg }   -- set_sext
  let s := { s with mideleg := setBit 5 s.mideleg }   -- set_stimer
  let s := { s with mideleg := setBit 1 s.mideleg }   -- set_ssoft
  let s := { s with mideleg := setBit 8 s.mideleg }   -- set_uext
  let s := { s with mideleg := setBit 4 s.mideleg }   -- set_utimer
  let s := { s with mideleg := setBit 0 s.mideleg }   -- set_usoft
  let s := { s with medeleg := setBit 0 s.medeleg }   -- instruction_misaligned
  let s := { s with medeleg := setBit 3 s.medeleg }   -- breakpoint
  let s := { s with medeleg := setBit 8 s.medeleg }   -- user_env_call
  let s := { s with medeleg := setBit 12 s.medeleg }  -- instruction_page_fault
  let s := { s with medeleg := setBit 13 s.medeleg }  -- load_page_fault
  let s := { s with medeleg := setBit 15 s.medeleg }  -- store_page_fault
  let s := { s with medeleg := setBit 1 s.medeleg }   -- instruction_fault
  let s := { s with medeleg := setBit 5 s.medeleg }   -- load_fault
  let s := { s with medeleg := setBit 7 s.medeleg }   -- store_fault
  let s := { s with mie := setBit 11 s.mie }          -- set_mext
  let s := { s with mie := setBit 3 s.mie }           -- set_msoft
  s

/-! ## `pause` (`main.rs` lines 192–212) -/

/-- The machine state visible to `pause` on the current hart: this
hart's CLINT soft-pending bit, `mip.MSIP`, and `mie.MSIE`. -/
structure PauseState where
  clintMsip : Bool
  mipMsoft : Bool
  mieMsoft : Bool
  deriving DecidableEq, Repr

/-- The `wfi` loop of `pause`: `obs` lists the value of `mip.MSIP`
observed after each `wfi`; the loop breaks at the first `true`
observation.  Returns `none` when the stream is exhausted without
`mip.MSIP` being seen — the loop would still be spinning. -/
def pauseLoopRun (s : PauseState) : List Bool → Option PauseState
  | [] => none
  | b :: rest =>
      let s' := { s with mipMsoft := b }
      if s'.mipMsoft then some s' else pauseLoopRun s' rest

/-- `pause` (`main.rs` lines 192–212): clear this hart's CLINT
soft-pending, clear `mip.MSIP`, save then set `mie.MSIE`, loop on `wfi`
until `mip.MSIP` is observed, restore `mie.MSIE` if it was previously
clear, and clear the CLINT soft-pending again. -/
def pause (s : PauseState) (obs : List Bool) : Option PauseState :=
  let s := { s with clintMsip := false }          -- clint.clear_soft(hartid)
  let s := { s with mipMsoft := false }           -- mip::clear_msoft()
  let prevMsoft := s.mieMsoft                     -- mie::read().msoft()
  let s := { s with mieMsoft := true }            -- mie::set_msoft()
  match pauseLoopRun s obs with
  | none => none
  | some s =>
      let s := if !prevMsoft then { s with mieMsoft := false } else s
      some { s with clintMsip := false }          -- clint.clear_soft(hartid)

/-! ## UART (`peripheral/uart.rs`) -/

/-- The UART registers read or written by the byte-level operations:
the transmitter holding register, the receiver data register, and the
line status register. -/
structure UartState where
  thr : Nat
  rdr : Nat
  lsr : Nat
  deriving DecidableEq, Repr

/-- `UART_CLK` (`uart.rs` line 111). -/
def UART_CLK : Nat := 100000000

/-- `UART_BUADRATE_32MCLK_115200` (`uart.rs` line 112). -/
def UART_BUADRATE_32MCLK_115200 : Nat := 115200

/-- The divisor computed by `Uart::preloaded_uart0`
(`uart.rs` line 16): `(UART_CLK / UART_BUADRATE_32MCLK_115200) >> 4`. -/
def uartDivisor : Nat := (UART_CLK / UART_BUADRATE_32MCLK_115200) >>> 4

/-- The two divisor-latch bytes written by `preloaded_uart0`
(`uart.rs` lines 19–20): `BRDL = divisor & 0xff`,
`BRDH = (divisor >> 8) & 0xff`. -/
def uartInitDivisorWrites : Nat × Nat :=
  (uartDivisor &&& 0xff, (uartDivisor >>> 8) &&& 0xff)

/-- `LSR_THRE` (`uart.rs` line 105). -/
def LSR_THRE : Nat := 0x20

/-- `Read::read` (`uart.rs` lines 49–55): return the byte in `RDR` when
`LSR` bit 0 (data ready) is set, otherwise `none` (`WouldBlock`). -/
def uartRead (s : UartState) : Option Nat :=
  if s.lsr &&& (1 <<< 0) ≠ 0 then some (s.rdr % 256) else none

/-- `Write::write` (`uart.rs` lines 62–65): store the byte into the
transmitter holding register and return `Ok` — no status check. -/
def uartWrite (s : UartState) (byte : Nat) : UartState :=
  { s with thr := byte }

/-- `Write::flush` (`uart.rs` lines 68–74): `Ok` when `LSR.THRE` is set,
otherwise `none` (`WouldBlock`). -/
def uartFlush (s : UartState) : Option Unit :=
  if s.lsr &&& LSR_THRE ≠ 0 then some () else none

/-! ## Boot flow (`main.rs`, `rust_main`, lines 45–90) -/

/-- The observable steps of `rust_main`, in program order. -/
inductive BootEvent where
  | initBss
  | initHeap
  | initStdio
  | copyKernel (dst : Nat)
  | printBanner
  | initClint
  | parseDeviceTree (addr : Nat)
  | printEnterMessage
  | sendSoft (hart : Nat)
  | pauseWait
  | setPmpStep
  | delegateStep
  | printCsrs
  | runtimeInit
  | enterSupervisor (mepc hartId opaq : Nat)
  deriving DecidableEq, Repr

/-- Trace of `rust_main` (`main.rs` lines 45–90) for a given hart.
`dtbAddr` models `DEVICE_TREE.as_ptr() as usize`, the address of the
compile-time embedded DTB: `rust_main` takes only `hart_id` from the
previous boot stage, and `opaque` is computed from the embedded blob on
its first line.  Hart 0 performs global init (including the
unconditional copy of the embedded `KERNEL` to `0x8020_0000`) and wakes
hart 1; other harts `pause`.  Every hart then sets PMP, delegates, and
enters the supervisor at `0x8020_0000` with `(hart_id, opaque)`. -/
def rustMain (dtbAddr : Nat) (hartId : Nat) : List BootEvent :=
  (if hartId = 0 then
    [.initBss, .initHeap, .initStdio, .copyKernel 0x80200000,
     .printBanner, .initClint, .parseDeviceTree dtbAddr,
     .printEnterMessage, .sendSoft 1]
  else
    [.pauseWait]) ++
  [.setPmpStep, .delegateStep] ++
  (if hartId = 0 then [.printCsrs] else []) ++
  [.runtimeInit, .enterSupervisor 0x80200000 hartId dtbAddr]

/-! ## Theorems -/

/-- Helper: the counting loop of `entry` adds `t0` to `sp` exactly
`n + 1` times, with RV64 wrapping. -/
theorem entryLoop_eq (t0 : Nat) :
    ∀ n sp, entryLoop t0 sp (n + 1) = (sp + (n + 1) * t0) % 2 ^ 64 := by
  intro n
  induction n with
  | zero => intro sp; simp [entryLoop]
  | succ m ih =>
      intro sp
      show entryLoop t0 ((sp + t0) % 2 ^ 64) (m + 1) = _
      rw [ih]
      rw [Nat.mod_add_mod]
      ring_nf

/-- C7: For every hart id `h`, the naked entry stub sets the stack
pointer to the base of `SBI_STACK` plus `(h + 1) * PER_HART_STACK_SIZE`
(the counting loop adds `PER_HART_STACK_SIZE` exactly `h + 1` times,
with RV64 wrapping addition) and then jumps to `rust_main`. -/
theorem entry_stack_pointer (stackBase hartId : Nat) :
    entry stackBase hartId =
      ((stackBase + (hartId + 1) * PER_HART_STACK_SIZE) % 2 ^ 64,
       EntryTarget.rustMain) := by
  unfold entry
  rw [entryLoop_eq]

/-- C6: `set_pmp` writes exactly three NAPOT regions: each `pmpaddr`
equals `(base >> 2) | ((size >> 2) - 1)` for the pairs
`(0x1000_0000, 0x0800_0000)`, `(0x0200_0000, 0x0001_0000)` and
`(0x8000_0000, 0x2_0000_0000)`, and `pmpcfg0` packs the
permission/NAPOT bytes `RW|NAPOT = 0b11011`, `RW|NAPOT = 0b11011` and
`RWX|NAPOT = 0b11111` at bit offsets 0, 8 and 16 with no other byte
set. -/
theorem pmp_napot_encoding :
    set_pmp.1 &&& 0xff = 0b11011 ∧
    (set_pmp.1 >>> 8) &&& 0xff = 0b11011 ∧
    (set_pmp.1 >>> 16) &&& 0xff = 0b11111 ∧
    set_pmp.1 >>> 24 = 0 ∧
    set_pmp.2.1 = (0x10000000 >>> 2) ||| ((0x8000000 >>> 2) - 1) ∧
    set_pmp.2.2.1 = (0x2000000 >>> 2) ||| ((0x10000 >>> 2) - 1) ∧
    set_pmp.2.2.2 = (0x80000000 >>> 2) ||| ((0x200000000 >>> 2) - 1) := by
  decide

/-- C5: starting from cleared CSRs, `delegate_interrupt_exception`
leaves `mideleg` with exactly the supervisor and user
external/timer/software interrupt bits (SEIP=9, STIP=5, SSIP=1, UEIP=8,
UTIP=4, USIP=0), `medeleg` with exactly the nine listed exception bits,
and `mie` with exactly `MEIE=11` and `MSIE=3`; moreover for an arbitrary
initial state the `MTIE` bit (7) of `mie` is never touched, so it
remains clear whenever it starts clear. -/
theorem delegation_bit_masks :
    (delegate_interrupt_exception ⟨0, 0, 0⟩ =
      ⟨(1 <<< 9) ||| (1 <<< 5) ||| (1 <<< 1) |||
         (1 <<< 8) ||| (1 <<< 4) ||| (1 <<< 0),
       (1 <<< 0) ||| (1 <<< 3) ||| (1 <<< 8) ||| (1 <<< 12) |||
         (1 <<< 13) ||| (1 <<< 15) ||| (1 <<< 1) ||| (1 <<< 5) |||
         (1 <<< 7),
       (1 <<< 11) ||| (1 <<< 3)⟩) ∧
    (∀ s : DelegCsrs,
      (delegate_interrupt_exception s).mie.testBit 7 = s.mie.testBit 7) := by
  constructor
  · decide
  · intro s
    simp only [delegate_interrupt_exception, setBit]
    rw [Nat.testBit_or, Nat.testBit_or]
    have h1 : Nat.testBit (1 <<< 11) 7 = false := by decide
    have h2 : Nat.testBit (1 <<< 3) 7 = false := by decide
    rw [h1, h2, Bool.or_false, Bool.or_false]

/-- C2: the non-retentive start/resume rewrite — performed both by the
`0x233` SbiCall path and by the wake-after-`Stop` path of `MachineSoft`
— writes `satp = 0`, clears `sstatus.SIE` (bit 1 of `mstatus`), sets
`a0 = hart_id`, `a1 = opaque`, `mepc = addr`, and re-reads
`ctx.mstatus` from the modified `sstatus` (so `ctx.mstatus` is exactly
the post-clear machine `mstatus`, with its SIE bit clear). -/
theorem non_retentive_resume_register_contract
    (hartId p o v : Nat) (cx : SupervisorContext) (csr : MachineCsrs) :
    (handleSbiCall hartId ⟨0x233, v⟩ (some (.start p o)) cx csr =
        nonRetentiveResume hartId p o cx csr) ∧
    (handleMachineSoftStopWake hartId (some (.start p o)) cx csr =
        nonRetentiveResume hartId p o cx csr) ∧
    ((nonRetentiveResume hartId p o cx csr).2.satp = 0) ∧
    ((nonRetentiveResume hartId p o cx csr).2.mstatus =
        clearSie csr.mstatus) ∧
    ((nonRetentiveResume hartId p o cx csr).2.mstatus.testBit sieBit =
        false) ∧
    ((nonRetentiveResume hartId p o cx csr).1.mstatus =
        (nonRetentiveResume hartId p o cx csr).2.mstatus) ∧
    ((nonRetentiveResume hartId p o cx csr).1.a0 = hartId) ∧
    ((nonRetentiveResume hartId p o cx csr).1.a1 = o) ∧
    ((nonRetentiveResume hartId p o cx csr).1.mepc = p) := by
  refine ⟨rfl, rfl, rfl, rfl, ?_, rfl, rfl, rfl, rfl⟩
  show (clearSie csr.mstatus).testBit 1 = false
  unfold clearSie sieBit
  rw [Nat.testBit_and]
  have hmask : Nat.testBit (2 ^ 64 - 1 - (1 <<< 1)) 1 = false := by decide
  rw [hmask, Bool.and_false]

/-- C9: when `rustsbi::ecall` returns the `0x233` sentinel but the HSM
mailbox does not hold a `Start` command, the SbiCall arm leaves the
supervisor context and the machine CSRs entirely unchanged: `mepc` is
not advanced and `a0`/`a1` keep the original ECALL arguments. -/
theorem sbi_sentinel_without_start_is_noop
    (hartId : Nat) (ans : SbiRet) (cmd : Option HsmCommand)
    (cx : SupervisorContext) (csr : MachineCsrs)
    (herr : ans.error = 0x233)
    (hcmd : ∀ p o, cmd ≠ some (.start p o)) :
    handleSbiCall hartId ans cmd cx csr = (cx, csr) := by
  unfold handleSbiCall
  rw [if_pos herr]
  match cmd with
  | none => rfl
  | some .stop => rfl
  | some (.start p o) => exact absurd rfl (hcmd p o)

/-- Witness for `sbi_sentinel_without_start_is_noop` at a concrete
state: sentinel error, empty mailbox, all registers zero. -/
theorem sbi_sentinel_without_start_is_noop_witness :
    (SbiRet.mk 0x233 0).error = 0x233 ∧
    (∀ p o, (none : Option HsmCommand) ≠ some (.start p o)) ∧
    handleSbiCall 0 ⟨0x233, 0⟩ none ⟨0, 0, 0, 0, 0, 0, 0, 0, 0, 0, []⟩
        ⟨0, 0⟩ =
      (⟨0, 0, 0, 0, 0, 0, 0, 0, 0, 0, []⟩, ⟨0, 0⟩) := by
  refine ⟨rfl, ?_, ?_⟩
  · intro p o h
    exact Option.noConfusion h
  · exact sbi_sentinel_without_start_is_noop 0 ⟨0x233, 0⟩ none _ _ rfl
      (fun p o h => Option.noConfusion h)

/-- C1: for every yielded `SbiCall`, under the HSM coupling that the
`0x233` sentinel is only returned with a pending `Start` command,
exactly one of the following happens before the next resume:
(a) `mepc` advances by exactly 4 (wrapping) and `(a0, a1)` hold the
`(error, value)` pair of `rustsbi::ecall`, or (b) `mepc` is rewritten
to the pending start/resume address and `(a0, a1) = (hart_id, opaque)`.
The two disjuncts are mutually exclusive: the first holds exactly when
`ans.error ≠ 0x233` and the second exactly when `ans.error = 0x233`. -/
theorem sbi_call_exactly_one_outcome
    (hartId : Nat) (ans : SbiRet) (cmd : Option HsmCommand)
    (cx : SupervisorContext) (csr : MachineCsrs)
    (hsent : ans.error = 0x233 → ∃ p o, cmd = some (.start p o)) :
    (ans.error ≠ 0x233 ∧
      (handleSbiCall hartId ans cmd cx csr).1.mepc =
        (cx.mepc + 4) % 2 ^ 64 ∧
      (handleSbiCall hartId ans cmd cx csr).1.a0 = ans.error ∧
      (handleSbiCall hartId ans cmd cx csr).1.a1 = ans.value) ∨
    (ans.error = 0x233 ∧ ∃ p o, cmd = some (.start p o) ∧
      (handleSbiCall hartId ans cmd cx csr).1.mepc = p ∧
      (handleSbiCall hartId ans cmd cx csr).1.a0 = hartId ∧
      (handleSbiCall hartId ans cmd cx csr).1.a1 = o) := by
  by_cases herr : ans.error = 0x233
  · right
    obtain ⟨p, o, hcmd⟩ := hsent herr
    subst hcmd
    refine ⟨herr, p, o, rfl, ?_⟩
    unfold handleSbiCall
    rw [if_pos herr]
    exact ⟨rfl, rfl, rfl⟩
  · left
    refine ⟨herr, ?_⟩
    unfold handleSbiCall
    rw [if_neg herr]
    exact ⟨rfl, rfl, rfl⟩

/-- Witness for `sbi_call_exactly_one_outcome` at a concrete state:
hart 1, sentinel return, mailbox holding `Start(0x80200000, 0x42)`. -/
theorem sbi_call_exactly_one_outcome_witness :
    ((SbiRet.mk 0x233 0).error = 0x233 →
      ∃ p o, (some (HsmCommand.start 0x80200000 0x42) :
          Option HsmCommand) = some (.start p o)) ∧
    (((SbiRet.mk 0x233 0).error ≠ 0x233 ∧
      (handleSbiCall 1 ⟨0x233, 0⟩ (some (.start 0x80200000 0x42))
          ⟨0, 0, 0, 0, 0, 0, 0, 0, 0, 0, []⟩ ⟨0, 0⟩).1.mepc =
        ((0 : Nat) + 4) % 2 ^ 64 ∧
      (handleSbiCall 1 ⟨0x233, 0⟩ (some (.start 0x80200000 0x42))
          ⟨0, 0, 0, 0, 0, 0, 0, 0, 0, 0, []⟩ ⟨0, 0⟩).1.a0 =
        (SbiRet.mk 0x233 0).error ∧
      (handleSbiCall 1 ⟨0x233, 0⟩ (some (.start 0x80200000 0x42))
          ⟨0, 0, 0, 0, 0, 0, 0, 0, 0, 0, []⟩ ⟨0, 0⟩).1.a1 =
        (SbiRet.mk 0x233 0).value) ∨
    ((SbiRet.mk 0x233 0).error = 0x233 ∧ ∃ p o,
      (some (HsmCommand.start 0x80200000 0x42) : Option HsmCommand) =
        some (.start p o) ∧
      (handleSbiCall 1 ⟨0x233, 0⟩ (some (.start 0x80200000 0x42))
          ⟨0, 0, 0, 0, 0, 0, 0, 0, 0, 0, []⟩ ⟨0, 0⟩).1.mepc = p ∧
      (handleSbiCall 1 ⟨0x233, 0⟩ (some (.start 0x80200000 0x42))
          ⟨0, 0, 0, 0, 0, 0, 0, 0, 0, 0, []⟩ ⟨0, 0⟩).1.a0 = 1 ∧
      (handleSbiCall 1 ⟨0x233, 0⟩ (some (.start 0x80200000 0x42))
          ⟨0, 0, 0, 0, 0, 0, 0, 0, 0, 0, []⟩ ⟨0, 0⟩).1.a1 = o)) := by
  refine ⟨fun _ => ⟨0x80200000, 0x42, rfl⟩, ?_⟩
  exact sbi_call_exactly_one_outcome 1 ⟨0x233, 0⟩
    (some (.start 0x80200000 0x42)) ⟨0, 0, 0, 0, 0, 0, 0, 0, 0, 0, []⟩
    ⟨0, 0⟩ (fun _ => ⟨0x80200000, 0x42, rfl⟩)

/-- Helper: if the `wfi` loop of `pause` returns, it returns with
`mip.MSIP` observed set, leaves `mie.MSIE` and the CLINT bit untouched,
and some observation in the consumed stream was `true`. -/
theorem pauseLoopRun_spec (obs : List Bool) :
    ∀ s s', pauseLoopRun s obs = some s' →
      s'.mieMsoft = s.mieMsoft ∧ s'.clintMsip = s.clintMsip ∧
      s'.mipMsoft = true ∧ true ∈ obs := by
  induction obs with
  | nil => intro s s' h; exact Option.noConfusion h
  | cons b rest ih =>
      intro s s' h
      unfold pauseLoopRun at h
      by_cases hb : b = true
      · subst hb
        simp at h
        subst h
        exact ⟨rfl, rfl, rfl, List.mem_cons_self _ _⟩
      · have hb' : b = false := by
          cases b
          · rfl
          · exact absurd rfl hb
        subst hb'
        simp at h
        have := ih _ _ h
        exact ⟨this.1, this.2.1, this.2.2.1, List.mem_cons_of_mem _ this.2.2.2⟩

/-- C4: `pause` clears the CLINT soft-pending, clears `mip.MSIP`,
saves and sets `mie.MSIE`, loops on `wfi` breaking only when `mip.MSIP`
is observed set, restores `mie.MSIE` when it was previously clear, and
clears the CLINT soft-pending again; consequently when it returns,
`mie.MSIE` equals its value at entry, the CLINT soft-pending is clear,
and `mip.MSIP` was observed set (some observation in the stream was
`true`). -/
theorem pause_preserves_msie_and_observes_msip
    (s s' : PauseState) (obs : List Bool)
    (h : pause s obs = some s') :
    s'.mieMsoft = s.mieMsoft ∧ s'.clintMsip = false ∧
    s'.mipMsoft = true ∧ true ∈ obs := by
  have heq : pause s obs =
      match pauseLoopRun ⟨false, false, true⟩ obs with
      | none => none
      | some s4 =>
          some { (if !s.mieMsoft then { s4 with mieMsoft := false }
                    else s4) with
                 clintMsip := false } := rfl
  rw [heq] at h
  cases hrun : pauseLoopRun ⟨false, false, true⟩ obs with
  | none =>
      rw [hrun] at h
      exact Option.noConfusion h
  | some s4 =>
      rw [hrun] at h
      have hloop := pauseLoopRun_spec obs _ _ hrun
      simp only [Option.some.injEq] at h
      subst h
      cases hmie : s.mieMsoft with
      | true => simp [hmie, hloop.2.2.1, hloop.2.2.2, hloop.1]
      | false => simp [hmie, hloop.2.2.1, hloop.2.2.2]

/-- Witness for `pause_preserves_msie_and_observes_msip` at a concrete
state: entry with CLINT pending and `mie.MSIE` clear, a single `wfi`
observing `mip.MSIP` set. -/
theorem pause_witness :
    pause ⟨true, false, false⟩ [true] = some ⟨false, true, false⟩ ∧
    ((PauseState.mk false true false).mieMsoft =
        (PauseState.mk true false false).mieMsoft ∧
      (PauseState.mk false true false).clintMsip = false ∧
      (PauseState.mk false true false).mipMsoft = true ∧
      true ∈ [true]) :=
  ⟨rfl, pause_preserves_msie_and_observes_msip _ _ _ rfl⟩

/-- C3: the execute loop panics exactly in three cases — an illegal
instruction that is neither emulable nor delegable, a `MachineSoft`
yield with an empty mailbox when delegation is not allowed, and a
`Start` command observed via `MachineSoft` on a running hart; and the
panic handler emits a single print holding the hart id and the panic
message (no system reset is among its outputs) and then loops forever
(its loop step is the identity, so no finite number of steps leaves
it). -/
theorem fatal_conditions_characterization :
    (∀ (delegable : Bool) (cmd : Option HsmCommand) (ev : TrapEvent),
      (handleTrap delegable cmd ev).isPanic = true ↔
        ((ev = .illegalInstruction false ∧ delegable = false) ∨
         (ev = .machineSoft ∧ cmd = none ∧ delegable = false) ∨
         (∃ p o, ev = .machineSoft ∧ cmd = some (.start p o)))) ∧
    (∀ (hartId : Nat) (info : String),
      onPanicOutput hartId info =
        [.print ("[rustsbi-panic] hart " ++ toString hartId ++ " " ++
          info)] ∧
      OutputEvent.systemReset ∉ onPanicOutput hartId info) ∧
    (∀ n : Nat, panicLoopStep^[n] PanicPc.looping = PanicPc.looping) := by
  refine ⟨?_, ?_, ?_⟩
  · intro delegable cmd ev
    cases ev with
    | sbiCall ans => simp [handleTrap, Outcome.isPanic]
    | illegalInstruction emulable =>
        cases emulable <;> cases delegable <;>
          simp [handleTrap, Outcome.isPanic]
    | machineTimer => simp [handleTrap, Outcome.isPanic]
    | machineSoft =>
        cases cmd with
        | none => cases delegable <;> simp [handleTrap, Outcome.isPanic]
        | some c =>
            cases c <;> cases delegable <;>
              simp [handleTrap, Outcome.isPanic]
  · intro hartId info
    refine ⟨rfl, ?_⟩
    simp [onPanicOutput]
  · intro n
    induction n with
    | zero => rfl
    | succ m ih =>
        rw [Function.iterate_succ_apply]
        exact ih

/-- C8 counterexample: the transmit path does not poll `LSR.THRE`
before the byte is written — at a UART state whose `LSR` is zero (so
`THRE` is clear), `write` still stores the byte into the transmitter
holding register and reports success. -/
theorem uart_write_ignores_thre :
    uartWrite ⟨0, 0, 0⟩ 65 = ⟨65, 0, 0⟩ ∧
    (UartState.mk 0 0 0).lsr &&& LSR_THRE = 0 := by
  constructor
  · rfl
  · decide

/-- C8 (amended): a read returns a byte only when `LSR` bit DR is set
(otherwise it reports would-block); a transmit writes the byte into the
transmitter holding register unconditionally, and the separate `flush`
operation polls `LSR.THRE`, reporting would-block until it is set — so
the `THRE` poll follows the write rather than preceding it; the divisor
written at init equals `(100_000_000 / 115200) >> 4` (= 54, written as
divisor-latch bytes `(54, 0)`). -/
theorem uart_polling_discipline :
    (∀ s : UartState, (uartRead s).isSome = true ↔ s.lsr &&& 1 ≠ 0) ∧
    (∀ (s : UartState) (b : Nat), uartWrite s b = ⟨b, s.rdr, s.lsr⟩) ∧
    (∀ s : UartState,
      (uartFlush s).isSome = true ↔ s.lsr &&& LSR_THRE ≠ 0) ∧
    uartDivisor = (100000000 / 115200) >>> 4 ∧
    uartDivisor = 54 ∧
    uartInitDivisorWrites = (54, 0) := by
  refine ⟨?_, ?_, ?_, rfl, by decide, by decide⟩
  · intro s
    unfold uartRead
    by_cases hd : s.lsr &&& (1 <<< 0) ≠ 0
    · rw [if_pos hd]
      simpa using hd
    · rw [if_neg hd]
      simpa using hd
  · intro s b
    rfl
  · intro s
    unfold uartFlush
    by_cases hd : s.lsr &&& LSR_THRE ≠ 0
    · rw [if_pos hd]
      simpa using hd
    · rw [if_neg hd]
      simpa using hd

/-- C10: during boot, hart 0 unconditionally copies the embedded
`KERNEL` blob to `0x8020_0000` strictly before entering the supervisor,
and for every hart the `opaque` value passed to S-mode is the address
of the compile-time embedded `DEVICE_TREE` blob (`rust_main` receives
only the hart id from the previous boot stage, so no bootloader DTB
pointer reaches S-mode). -/
theorem boot_copies_kernel_and_embedded_dtb (dtbAddr hartId : Nat) :
    (rustMain dtbAddr 0 =
      [.initBss, .initHeap, .initStdio, .copyKernel 0x80200000,
       .printBanner, .initClint, .parseDeviceTree dtbAddr,
       .printEnterMessage, .sendSoft 1, .setPmpStep, .delegateStep,
       .printCsrs, .runtimeInit,
       .enterSupervisor 0x80200000 0 dtbAddr]) ∧
    (∃ pre post, rustMain dtbAddr 0 =
        pre ++ [BootEvent.copyKernel 0x80200000] ++ post ∧
      BootEvent.enterSupervisor 0x80200000 0 dtbAddr ∈ post) ∧
    ((rustMain dtbAddr hartId).getLast? =
      some (.enterSupervisor 0x80200000 hartId dtbAddr)) := by
  refine ⟨rfl, ?_, ?_⟩
  · refine ⟨[.initBss, .initHeap, .initStdio],
      [.printBanner, .initClint, .parseDeviceTree dtbAddr,
       .printEnterMessage, .sendSoft 1, .setPmpStep, .delegateStep,
       .printCsrs, .runtimeInit,
       .enterSupervisor 0x80200000 0 dtbAddr], rfl, ?_⟩
    simp
  · by_cases h0 : hartId = 0
    · subst h0
      rfl
    · unfold rustMain
      rw [if_neg h0, if_neg h0]
      rfl

end RustSBI
